import Mathlib

/-!
Verification of the food-menu analyzer agent (`src/main.py`, `process_message`).

The embedding models Python strings as Lean `String` (whose logical model is a
`List Char`); the Python string methods used by the source (`strip`, `split`,
`startswith`, slicing, `lower`, `isdigit`, `join`, substring `in`) are given
explicit character-list semantics below, faithful to CPython for the ASCII
inputs this program manipulates.
-/

/-- Python `str.strip()` whitespace class (ASCII part). -/
def pyIsSpace (c : Char) : Bool :=
  c == ' ' || c == '\t' || c == '\n' || c == '\r' || c == '\x0b' || c == '\x0c'

/-- Drop leading characters satisfying `pyIsSpace`. -/
def dropLeadSpaces : List Char → List Char
  | [] => []
  | c :: cs => if pyIsSpace c then dropLeadSpaces cs else c :: cs

/-- Python `str.strip()`: remove leading and trailing whitespace. -/
def pyStrip (cs : List Char) : List Char :=
  ((dropLeadSpaces cs).reverse |> dropLeadSpaces).reverse

/-- Python `s.split(sep)` for a one-character separator: always returns at
least one (possibly empty) piece. -/
def splitOnChar (sep : Char) : List Char → List (List Char)
  | [] => [[]]
  | c :: cs =>
    if c == sep then [] :: splitOnChar sep cs
    else
      match splitOnChar sep cs with
      | [] => [[c]]
      | p :: ps => (c :: p) :: ps

/-- The piece of `s.split(sep)[0]`: everything before the first occurrence of
`sep` (the whole list when `sep` does not occur). -/
def takeUntilChar (sep : Char) : List Char → List Char
  | [] => []
  | c :: cs => if c == sep then [] else c :: takeUntilChar sep cs

/-- Split at every character satisfying `p`, keeping empty pieces (the raw
pieces underlying Python `str.split()` without arguments). -/
def splitOnPred (p : Char → Bool) : List Char → List (List Char)
  | [] => [[]]
  | c :: cs =>
    if p c then [] :: splitOnPred p cs
    else
      match splitOnPred p cs with
      | [] => [[c]]
      | t :: ts => (c :: t) :: ts

/-- Python `str.split()` (no argument): whitespace-run tokenization, empty
tokens dropped. -/
def wsTokens (cs : List Char) : List (List Char) :=
  (splitOnPred pyIsSpace cs).filter (fun t => !t.isEmpty)

/-- Python `' '.join(tokens)`. -/
def joinSpace : List (List Char) → List Char
  | [] => []
  | [w] => w
  | w :: ws => w ++ ' ' :: joinSpace ws

/-- Is `p` a leading segment of `s` (Python `s.startswith(p)`)? -/
def leadsChars : List Char → List Char → Bool
  | [], _ => true
  | _ :: _, [] => false
  | p :: ps, s :: ss => p == s && leadsChars ps ss

/-- Does `needle` occur contiguously inside the second list (Python
`needle in hay`)? -/
def hasSubChars (needle : List Char) : List Char → Bool
  | [] => leadsChars needle []
  | c :: rest => leadsChars needle (c :: rest) || hasSubChars needle rest

/-- Python substring test `needle in hay` on strings. -/
def strContains (hay needle : String) : Bool :=
  hasSubChars needle.toList hay.toList

/-- Python `str.lower()` restricted to ASCII letters (the only letters the
program's stop/rejection sets contain). -/
def pyToLower (c : Char) : Char :=
  if 'A' ≤ c && c ≤ 'Z' then Char.ofNat (c.toNat + 32) else c

/-- Lowercase every character. -/
def lowerChars (w : List Char) : List Char := w.map pyToLower

/-- Python `str.isdigit()`: non-empty and all digits. -/
def pyIsDigitTok (w : List Char) : Bool :=
  !w.isEmpty && w.all (fun c => c.isDigit)

/-- The list-marker tokens stripped from the start of a line
(`src/main.py` line 265). -/
def listMarkers : List String :=
  ["- ", "• ", "* ", "1. ", "2. ", "3. ", "4. ", "5. ", "6. ", "7. ", "8. ",
   "9. ", "10. "]

/-- Strip the first matching list marker, if any (the `for marker in ...:
if food_name.startswith(marker): ...; break` loop, lines 265-269). -/
def stripMarkerLoop : List String → List Char → List Char
  | [], cs => cs
  | m :: ms, cs =>
    if leadsChars m.toList cs then cs.drop m.toList.length
    else stripMarkerLoop ms cs

/-- `food_name.split(':')[0].split('-')[0].split('(')[0].split('[')[0]`
(line 272): sequential truncation before the first occurrence of each
delimiter. -/
def truncateDelims (cs : List Char) : List Char :=
  takeUntilChar '[' (takeUntilChar '(' (takeUntilChar '-' (takeUntilChar ':' cs)))

/-- Stop words removed during token filtering (line 276). -/
def stopWords : List String :=
  ["the", "a", "an", "and", "or", "with", "of", "in", "on", "at", "to", "for"]

/-- Names rejected as food candidates (line 280). -/
def rejectedNames : List String :=
  ["menu", "food", "dish", "item", "price", "description", "s", "es"]

/-- Keep a token iff it is not purely numeric and not a stop word (line 276). -/
def keptWord (w : List Char) : Bool :=
  !pyIsDigitTok w && !(stopWords.map String.toList).contains (lowerChars w)

/-- The whole token-filtering step of line 276: split on whitespace, drop
numeric and stop-word tokens, rejoin with single spaces. -/
def wordFilterStep (cs : List Char) : List Char :=
  joinSpace ((wsTokens cs).filter keptWord)

/-- The acceptance test of line 280: non-empty, longer than 2 characters and
not in the rejection set. -/
def validFoodName (f : List Char) : Bool :=
  !f.isEmpty && decide (f.length > 2) &&
    !(rejectedNames.map String.toList).contains (lowerChars f)

/-- Process one line of the response (lines 257-284): strip, skip blanks,
strip a marker, truncate at delimiters, filter tokens, accept or reject. -/
def lineCandidate (rawLine : List Char) : Option (List Char) :=
  let line := pyStrip rawLine
  if line.isEmpty then none
  else
    let f := wordFilterStep (pyStrip (truncateDelims (stripMarkerLoop listMarkers line)))
    if validFoodName f then some f else none

/-- The food-name extraction of lines 253-284: split the stripped response on
newlines and collect the per-line candidates in source order. -/
def extractFoodNames (fullResponse : String) : List String :=
  ((splitOnChar '\n' (pyStrip fullResponse.toList)).filterMap lineCandidate).map
    (fun cs => String.mk cs)

/-- C1: the extraction, applied to the three-line sample from the spec, yields
exactly the candidates "Grilled Salmon", "Caesar Salad", "Tomato Soup" in that
order. -/
theorem extractFoodNames_sample :
    extractFoodNames
        "1. Grilled Salmon\n- Caesar Salad (with croutons)\n* Tomato Soup: rich and creamy"
      = ["Grilled Salmon", "Caesar Salad", "Tomato Soup"] := by
  decide

/-- A named configuration variable attached to the incoming turn. -/
structure Variable where
  name : String
  value : String

/-- The fields of the incoming chat message that `process_message` consumes. -/
structure ChatMessage where
  thread_id : String
  message : String
  model : String
  system_message : String
  project_system_message : String
  -- source field name `variables`; renamed because `variables` is a Lean keyword
  vars : List Variable
  file_type : Option String
  file_url : Option String
  response_uuid : String

/-- One incremental unit from the completion provider: optional text content
and optional usage statistics (modelled as a token count). -/
structure StreamDelta where
  content : Option String
  usage : Option Nat

/-- Python truthiness of an optional string (`None` and `""` are falsy). -/
def pyTruthyStr : Option String → Bool
  | none => false
  | some s => !(s == "")

/-- The delta's text, defaulting to empty. -/
def contentOf (d : StreamDelta) : String := d.content.getD ""

/-- The image-turn test used at lines 154, 227, 246 and 382:
`data.file_type == 'image' and data.file_url` (truthiness of the URL). -/
def isImageMessage (d : ChatMessage) : Bool :=
  (d.file_type == some "image") && pyTruthyStr d.file_url

/-- Modelled from the spec: `get_openai_api_key` lives in the external `lexia`
package, not under `src/`; spec §6 says the completion credential is looked up
among the configuration variables by a fixed name. We model it as the value of
the first variable named "OPENAI_API_KEY". -/
def getOpenaiApiKey : List Variable → Option String
  | [] => none
  | v :: vs => if v.name == "OPENAI_API_KEY" then some v.value else getOpenaiApiKey vs

/-- The `for var in data.variables: if var.name == "SERPER_API_KEY": ...; break`
lookup of lines 294-298. -/
def findSerperKey : List Variable → Option String
  | [] => none
  | v :: vs => if v.name == "SERPER_API_KEY" then some v.value else findSerperKey vs

/-- Python truthiness of a looked-up credential (`if not openai_api_key` /
`if serper_api_key`). -/
def credentialPresent : Option String → Bool
  | none => false
  | some s => !(s == "")

/-- State of the streaming loop of lines 221-241: the accumulator, the chunks
forwarded to the delivery sink, and the captured usage info. -/
structure StreamState where
  fullResponse : String
  sinkChunks : List String
  usageInfo : Option Nat

/-- One iteration of the `for chunk in stream` loop (lines 229-241): if the
delta has truthy content, append it to the accumulator and — unless the turn is
an image turn — forward it to the sink; if the delta carries usage, record it. -/
def consumeDelta (isImage : Bool) (st : StreamState) (d : StreamDelta) : StreamState :=
  { fullResponse :=
      if pyTruthyStr d.content then st.fullResponse ++ contentOf d
      else st.fullResponse,
    sinkChunks :=
      if pyTruthyStr d.content && !isImage then st.sinkChunks ++ [contentOf d]
      else st.sinkChunks,
    usageInfo :=
      match d.usage with
      | some u => some u
      | none => st.usageInfo }

/-- Run the streaming loop over the whole delta sequence. -/
def runStreamAux (isImage : Bool) : StreamState → List StreamDelta → StreamState
  | st, [] => st
  | st, d :: ds => runStreamAux isImage (consumeDelta isImage st d) ds

/-- The initial loop state (`full_response = ""`, nothing forwarded,
`usage_info = None`). -/
def initStreamState : StreamState :=
  { fullResponse := "", sinkChunks := [], usageInfo := none }

/-- The whole stream-consumption stage. -/
def runStream (isImage : Bool) (deltas : List StreamDelta) : StreamState :=
  runStreamAux isImage initStreamState deltas

/-- The outcome of one Serper image-search call for one candidate, as the
`try` block of lines 310-357 distinguishes them. -/
structure ImageResult where
  imageUrl : Option String
  thumbnailUrl : Option String
  link : Option String

/-- Result of `requests.post` for one candidate: an HTTP response with a
status code and parsed `images` list (missing key modelled as `[]`), or one of
the exception classes caught by the loop. -/
inductive SearchResult where
  | response (status : Nat) (images : List ImageResult)
  | timeout
  | requestError
  | otherError

/-- Python `a or b` on an optional string against a default. -/
def pyOrStr (a : Option String) (b : String) : String :=
  match a with
  | some s => if s == "" then b else s
  | none => b

/-- `first_result.get('imageUrl') or first_result.get('thumbnailUrl') or
first_result.get('link') or ''` (line 330). -/
def photoUrlOf (r : ImageResult) : String :=
  pyOrStr r.imageUrl (pyOrStr r.thumbnailUrl (pyOrStr r.link ""))

/-- The per-item message streamed for one candidate, covering every branch of
lines 324-357: found / no photo / non-200 status / timeout / request error /
other error. -/
def foodItemMessage (name : String) (res : SearchResult) : String :=
  match res with
  | SearchResult.response status images =>
    if status == 200 then
      let url :=
        match images with
        | [] => ""
        | r :: _ => photoUrlOf r
      if !(url == "") then
        "## 🍕 " ++ name ++ "\n\n📸 **[View Photo](" ++ url ++ ")**\n\n---\n\n"
      else
        "## 🍕 " ++ name ++ "\n\n📸 *No photo found*\n\n---\n\n"
    else
      "## 🍕 " ++ name ++ "\n\n📸 *Search failed (Status: " ++ toString status
        ++ ")*\n\n---\n\n"
  | SearchResult.timeout => "## 🍕 " ++ name ++ "\n\n📸 *Search timeout*\n\n---\n\n"
  | SearchResult.requestError => "## 🍕 " ++ name ++ "\n\n📸 *Search error*\n\n---\n\n"
  | SearchResult.otherError => "## 🍕 " ++ name ++ "\n\n📸 *Search error*\n\n---\n\n"

/-- One externally visible action of the enrichment loop: an outgoing search
call (with its query string) or a chunk streamed to the sink. -/
inductive EnrichEvent where
  | searchCall (query : String)
  | chunkOut (text : String)

/-- The enrichment loop of lines 309-357 with the Serper key present: for each
of the first candidates, one search call (query `"<name> food photo"`) followed
by one streamed per-item message. The external provider is modelled as an
oracle from the candidate's position to its search result. -/
def enrichEventsLoop (oracle : Nat → SearchResult) : Nat → List String → List EnrichEvent
  | _, [] => []
  | i, name :: rest =>
    EnrichEvent.searchCall (name ++ " food photo")
      :: EnrichEvent.chunkOut (foodItemMessage name (oracle i))
      :: enrichEventsLoop oracle (i + 1) rest

/-- The basic per-item message of line 370 (Serper key absent): name only, no
photo field. -/
def basicItemMessage (name : String) : String :=
  "## 🍕 " ++ name ++ "\n\n---\n\n"

/-- The fallback loop of lines 369-371 (Serper key absent): one chunk per
candidate, no search calls, and no cap to ten items. -/
def basicLoop : List String → List EnrichEvent
  | [] => []
  | name :: rest => EnrichEvent.chunkOut (basicItemMessage name) :: basicLoop rest

/-- The streamed chunks among a list of enrichment events, in order. -/
def eventChunks : List EnrichEvent → List String
  | [] => []
  | EnrichEvent.searchCall _ :: rest => eventChunks rest
  | EnrichEvent.chunkOut t :: rest => t :: eventChunks rest

/-- How many search calls a list of enrichment events contains. -/
def eventSearchCount : List EnrichEvent → Nat
  | [] => 0
  | EnrichEvent.searchCall _ :: rest => eventSearchCount rest + 1
  | EnrichEvent.chunkOut _ :: rest => eventSearchCount rest

/-- The exact phrase whose presence in the accumulated text marks a non-menu
response (lines 247 and 383). -/
def menuPhrase : String := "This is not a food menu"

/-- Output of the post-processing block of lines 246-375: the enrichment
events it emitted and the value of `full_response` afterwards. -/
structure Stage1Out where
  events : List EnrichEvent
  fullResponse : String

/-- The post-processing block of lines 246-375. On an image turn whose
accumulated text does not contain `menuPhrase`, extract the food names; when
some were found, either run the Serper enrichment over the first ten
candidates (header chunk, then one search call and one per-item chunk each)
and replace `full_response` with the completion sentinel, or — with no Serper
key — stream the basic header and one per-item chunk for EVERY candidate
(the source caps only the Serper path to ten). Otherwise nothing is emitted
and `full_response` is unchanged. -/
def stage1 (isImage serperPresent : Bool) (oracle : Nat → SearchResult)
    (raw : String) : Stage1Out :=
  if isImage && !(strContains raw menuPhrase) then
    let foodNames := extractFoodNames raw
    if foodNames.isEmpty then { events := [], fullResponse := raw }
    else if serperPresent then
      { events :=
          EnrichEvent.chunkOut "# 🍽️ Food Menu Analysis Results\n\n"
            :: enrichEventsLoop oracle 0 (foodNames.take 10),
        fullResponse := "🍽️ Food menu analysis completed with photo search results." }
    else
      { events :=
          EnrichEvent.chunkOut "# 🍽️ Food Menu Items\n\n" :: basicLoop foodNames,
        fullResponse := "🍽️ Basic food menu list completed." }
  else { events := [], fullResponse := raw }

/-- The canonical text rebuilt for memory and completion on a valid-menu image
turn (lines 385-398): header, then for each of the first ten candidates the
name and a photo-search placeholder, then a closing note; or, with no
candidates, the no-extraction notice. -/
def buildCompleteContent (foodNames : List String) : String :=
  let base := "# 🍽️ Food Menu Analysis Results\n\n"
  if !foodNames.isEmpty then
    ((foodNames.take 10).foldl
        (fun acc n => acc ++ ("## 🍕 " ++ n ++ "\n\n")
          ++ "📸 *Photo search completed*\n\n---\n\n")
        base)
      ++ "\n*All food items have been analyzed and photos searched via Serper API.*"
  else
    base ++ "*No food names could be extracted from the menu.*"

/-- The finalization block of lines 382-399: on an image turn whose (possibly
already replaced) `full_response` does not contain `menuPhrase`, rebuild the
canonical text from the names extracted from the raw accumulated text;
otherwise keep `full_response` as it stands. (In the source the rebuilt text
reads the `food_names` variable bound at line 253; that variable is only read
on paths where extraction ran on `raw`, so re-deriving it from `raw` here is
exact.) -/
def finalizeText (isImage : Bool) (raw afterStage1 : String) : String :=
  if isImage && !(strContains afterStage1 menuPhrase) then
    buildCompleteContent (extractFoodNames raw)
  else afterStage1

/-- One externally visible call on the delivery sink. -/
inductive SinkEvent where
  | chunk (text : String)
  | complete (text : String) (usage : Option Nat)
  | errorReport (text : String)

/-- The externally visible behaviour of one `process_message` task: delivery
sink calls in order, history appends (role, content) in order, the number of
Serper search calls issued, and whether the completion provider was called. -/
structure Trace where
  sinkEvents : List SinkEvent
  historyAppends : List (String × String)
  searchCalls : Nat
  providerCalled : Bool

/-- The whole `process_message` task (lines 117-408), for one turn: the
completion provider's deltas and the image-search provider are supplied as
oracles. If the completion credential is missing (Python `if not
openai_api_key`), a single error call is emitted and nothing else happens
(lines 142-146). Otherwise the user message is appended to history (line 150),
the stream is consumed with incremental delivery suppressed on image turns
(lines 229-241), post-processing and finalization run (lines 246-399), the
assistant message is stored (line 402) and the terminal complete signal is
sent (line 406). -/
def processMessage (data : ChatMessage) (deltas : List StreamDelta)
    (oracle : Nat → SearchResult) : Trace :=
  if credentialPresent (getOpenaiApiKey data.vars) then
    let isImage := isImageMessage data
    let st := runStream isImage deltas
    let s1 := stage1 isImage (credentialPresent (findSerperKey data.vars)) oracle
      st.fullResponse
    let finalTxt := finalizeText isImage st.fullResponse s1.fullResponse
    { sinkEvents :=
        (st.sinkChunks ++ eventChunks s1.events).map SinkEvent.chunk
          ++ [SinkEvent.complete finalTxt st.usageInfo],
      historyAppends := [("user", data.message), ("assistant", finalTxt)],
      searchCalls := eventSearchCount s1.events,
      providerCalled := true }
  else
    { sinkEvents := [SinkEvent.errorReport "OpenAI API key not found in variables"],
      historyAppends := [],
      searchCalls := 0,
      providerCalled := false }

/-- The texts of the incremental chunk calls in a sink-event list, in order. -/
def chunkTexts : List SinkEvent → List String
  | [] => []
  | SinkEvent.chunk t :: rest => t :: chunkTexts rest
  | SinkEvent.complete _ _ :: rest => chunkTexts rest
  | SinkEvent.errorReport _ :: rest => chunkTexts rest

/-- The texts of the terminal complete calls in a sink-event list, in order. -/
def completeTexts : List SinkEvent → List String
  | [] => []
  | SinkEvent.complete t _ :: rest => t :: completeTexts rest
  | SinkEvent.chunk _ :: rest => completeTexts rest
  | SinkEvent.errorReport _ :: rest => completeTexts rest

/-- The contents of the history appends tagged with the assistant role. -/
def assistantTexts : List (String × String) → List String
  | [] => []
  | (role, content) :: rest =>
    if role == "assistant" then content :: assistantTexts rest
    else assistantTexts rest

/-- Concatenation of a list of strings, in order. -/
def strJoin : List String → String
  | [] => ""
  | s :: ss => s ++ strJoin ss

/-- The texts of the deltas with truthy content, in order. -/
def deltaTexts : List StreamDelta → List String
  | [] => []
  | d :: ds =>
    if pyTruthyStr d.content then contentOf d :: deltaTexts ds
    else deltaTexts ds

theorem strAppend_assoc (a b c : String) : a ++ b ++ c = a ++ (b ++ c) := by
  cases a with
  | mk la =>
    cases b with
    | mk lb =>
      cases c with
      | mk lc =>
        show String.mk ((la ++ lb) ++ lc) = String.mk (la ++ (lb ++ lc))
        rw [List.append_assoc]

theorem strAppend_empty (a : String) : a ++ "" = a := by
  cases a with
  | mk la =>
    show String.mk (la ++ []) = String.mk la
    rw [List.append_nil]

theorem strEmpty_append (a : String) : "" ++ a = a := by
  cases a with
  | mk la => rfl

theorem runStreamAux_fullResponse (b : Bool) (ds : List StreamDelta) :
    ∀ st : StreamState,
      (runStreamAux b st ds).fullResponse = st.fullResponse ++ strJoin (deltaTexts ds) := by
  induction ds with
  | nil => intro st; simp [runStreamAux, deltaTexts, strJoin, strAppend_empty]
  | cons d ds ih =>
    intro st
    simp only [runStreamAux, deltaTexts]
    rcases h : pyTruthyStr d.content with _ | _
    · simp only [h, Bool.false_eq_true, if_false, ih, consumeDelta]
    · simp only [h, if_true, ih, consumeDelta, strJoin]
      rw [strAppend_assoc]

theorem runStreamAux_chunks_false (ds : List StreamDelta) :
    ∀ st : StreamState,
      (runStreamAux false st ds).sinkChunks = st.sinkChunks ++ deltaTexts ds := by
  induction ds with
  | nil => intro st; simp [runStreamAux, deltaTexts]
  | cons d ds ih =>
    intro st
    simp only [runStreamAux, deltaTexts]
    rcases h : pyTruthyStr d.content with _ | _
    · simp [h, ih, consumeDelta]
    · simp [h, ih, consumeDelta]

theorem runStreamAux_chunks_true (ds : List StreamDelta) :
    ∀ st : StreamState, (runStreamAux true st ds).sinkChunks = st.sinkChunks := by
  induction ds with
  | nil => intro st; simp [runStreamAux]
  | cons d ds ih =>
    intro st
    simp only [runStreamAux]
    rcases h : pyTruthyStr d.content with _ | _
    · simp [h, ih, consumeDelta]
    · simp [h, ih, consumeDelta]

theorem runStream_fullResponse (b : Bool) (ds : List StreamDelta) :
    (runStream b ds).fullResponse = strJoin (deltaTexts ds) := by
  rw [runStream, runStreamAux_fullResponse]
  exact strEmpty_append _

theorem runStream_chunks_false (ds : List StreamDelta) :
    (runStream false ds).sinkChunks = deltaTexts ds := by
  rw [runStream, runStreamAux_chunks_false]
  rfl

theorem runStream_chunks_true (ds : List StreamDelta) :
    (runStream true ds).sinkChunks = [] := by
  rw [runStream, runStreamAux_chunks_true]
  rfl

theorem chunkTexts_map_chunk (xs : List String) (t : String) (u : Option Nat) :
    chunkTexts (xs.map SinkEvent.chunk ++ [SinkEvent.complete t u]) = xs := by
  induction xs with
  | nil => rfl
  | cons x xs ih => simp [chunkTexts, ih]

theorem completeTexts_map_chunk (xs : List String) (t : String) (u : Option Nat) :
    completeTexts (xs.map SinkEvent.chunk ++ [SinkEvent.complete t u]) = [t] := by
  induction xs with
  | nil => rfl
  | cons x xs ih => simp [completeTexts, ih]

theorem assistantTexts_pair (m t : String) :
    assistantTexts [("user", m), ("assistant", t)] = [t] := by
  simp [assistantTexts]

theorem eventChunks_enrichLoop_length (o : Nat → SearchResult) (ns : List String) :
    ∀ i, (eventChunks (enrichEventsLoop o i ns)).length = ns.length := by
  induction ns with
  | nil => intro i; rfl
  | cons n ns ih =>
    intro i
    simp [enrichEventsLoop, eventChunks, ih]

theorem eventChunks_enrichLoop_getD (o : Nat → SearchResult) (ns : List String) :
    ∀ i j, j < ns.length →
      (eventChunks (enrichEventsLoop o i ns)).getD j ""
        = foodItemMessage (ns.getD j "") (o (i + j)) := by
  induction ns with
  | nil => intro i j hj; exact absurd hj (by simp)
  | cons n ns ih =>
    intro i j hj
    match j with
    | 0 => simp [enrichEventsLoop, eventChunks, List.getD_cons_zero]
    | Nat.succ j =>
      have hj2 : j < ns.length := by simpa using hj
      simp only [enrichEventsLoop, eventChunks, List.getD_cons_succ]
      rw [ih (i + 1) j hj2]
      have harith : i + 1 + j = i + (j + 1) := by omega
      rw [harith]

theorem eventSearchCount_enrichLoop (o : Nat → SearchResult) (ns : List String) :
    ∀ i, eventSearchCount (enrichEventsLoop o i ns) = ns.length := by
  induction ns with
  | nil => intro i; rfl
  | cons n ns ih =>
    intro i
    simp [enrichEventsLoop, eventSearchCount, eventChunks, ih]

theorem eventChunks_basicLoop (ns : List String) :
    eventChunks (basicLoop ns) = ns.map basicItemMessage := by
  induction ns with
  | nil => rfl
  | cons n ns ih => simp [basicLoop, eventChunks, ih]

theorem eventSearchCount_basicLoop (ns : List String) :
    eventSearchCount (basicLoop ns) = 0 := by
  induction ns with
  | nil => rfl
  | cons n ns ih => simp [basicLoop, eventSearchCount, ih]

theorem processMessage_ok (data : ChatMessage) (deltas : List StreamDelta)
    (oracle : Nat → SearchResult)
    (hcred : credentialPresent (getOpenaiApiKey data.vars) = true) :
    processMessage data deltas oracle =
      { sinkEvents :=
          ((runStream (isImageMessage data) deltas).sinkChunks
              ++ eventChunks (stage1 (isImageMessage data)
                    (credentialPresent (findSerperKey data.vars)) oracle
                    (runStream (isImageMessage data) deltas).fullResponse).events).map
              SinkEvent.chunk
            ++ [SinkEvent.complete
                  (finalizeText (isImageMessage data)
                    (runStream (isImageMessage data) deltas).fullResponse
                    (stage1 (isImageMessage data)
                      (credentialPresent (findSerperKey data.vars)) oracle
                      (runStream (isImageMessage data) deltas).fullResponse).fullResponse)
                  (runStream (isImageMessage data) deltas).usageInfo],
        historyAppends :=
          [("user", data.message),
           ("assistant",
            finalizeText (isImageMessage data)
              (runStream (isImageMessage data) deltas).fullResponse
              (stage1 (isImageMessage data)
                (credentialPresent (findSerperKey data.vars)) oracle
                (runStream (isImageMessage data) deltas).fullResponse).fullResponse)],
        searchCalls :=
          eventSearchCount (stage1 (isImageMessage data)
            (credentialPresent (findSerperKey data.vars)) oracle
            (runStream (isImageMessage data) deltas).fullResponse).events,
        providerCalled := true } := by
  simp only [processMessage, hcred, if_true]

theorem stage1_nonImage (p : Bool) (oracle : Nat → SearchResult) (raw : String) :
    stage1 false p oracle raw = { events := [], fullResponse := raw } := by
  simp [stage1]

theorem stage1_notMenu (p : Bool) (oracle : Nat → SearchResult) (raw : String)
    (h : strContains raw menuPhrase = true) :
    stage1 true p oracle raw = { events := [], fullResponse := raw } := by
  simp [stage1, h]

theorem stage1_menu_noNames (p : Bool) (oracle : Nat → SearchResult) (raw : String)
    (h : strContains raw menuPhrase = false)
    (hn : (extractFoodNames raw).isEmpty = true) :
    stage1 true p oracle raw = { events := [], fullResponse := raw } := by
  simp [stage1, h, hn]

theorem stage1_menu_serper (oracle : Nat → SearchResult) (raw : String)
    (h : strContains raw menuPhrase = false)
    (hn : (extractFoodNames raw).isEmpty = false) :
    stage1 true true oracle raw =
      { events :=
          EnrichEvent.chunkOut "# 🍽️ Food Menu Analysis Results\n\n"
            :: enrichEventsLoop oracle 0 ((extractFoodNames raw).take 10),
        fullResponse := "🍽️ Food menu analysis completed with photo search results." } := by
  simp [stage1, h, hn]

theorem stage1_menu_basic (oracle : Nat → SearchResult) (raw : String)
    (h : strContains raw menuPhrase = false)
    (hn : (extractFoodNames raw).isEmpty = false) :
    stage1 true false oracle raw =
      { events :=
          EnrichEvent.chunkOut "# 🍽️ Food Menu Items\n\n"
            :: basicLoop (extractFoodNames raw),
        fullResponse := "🍽️ Basic food menu list completed." } := by
  simp [stage1, h, hn]

theorem sentinelSerper_no_phrase :
    strContains "🍽️ Food menu analysis completed with photo search results." menuPhrase
      = false := by
  decide

theorem sentinelBasic_no_phrase :
    strContains "🍽️ Basic food menu list completed." menuPhrase = false := by
  decide

theorem finalizeText_nonImage (raw after : String) :
    finalizeText false raw after = after := by
  simp [finalizeText]

theorem finalizeText_menu (raw after : String)
    (h : strContains after menuPhrase = false) :
    finalizeText true raw after = buildCompleteContent (extractFoodNames raw) := by
  simp [finalizeText, h]

theorem finalizeText_notMenu (raw after : String)
    (h : strContains after menuPhrase = true) :
    finalizeText true raw after = after := by
  simp [finalizeText, h]

/-- On a valid-menu image turn the stage-1 output never reintroduces the
non-menu phrase, so finalization always rebuilds the canonical text from the
extracted names. -/
theorem menu_final_eq (p : Bool) (oracle : Nat → SearchResult) (raw : String)
    (h : strContains raw menuPhrase = false) :
    finalizeText true raw (stage1 true p oracle raw).fullResponse
      = buildCompleteContent (extractFoodNames raw) := by
  rcases hn : (extractFoodNames raw).isEmpty with _ | _
  · rcases p with _ | _
    · rw [stage1_menu_basic oracle raw h hn]
      exact finalizeText_menu raw _ sentinelBasic_no_phrase
    · rw [stage1_menu_serper oracle raw h hn]
      exact finalizeText_menu raw _ sentinelSerper_no_phrase
  · rw [stage1_menu_noNames p oracle raw h hn]
    exact finalizeText_menu raw raw h

/-- Shared unfolding: texts persisted and completed on a valid-menu image
turn equal the canonical rebuilt content. -/
theorem processMessage_menu_texts (data : ChatMessage) (deltas : List StreamDelta)
    (oracle : Nat → SearchResult)
    (hcred : credentialPresent (getOpenaiApiKey data.vars) = true)
    (himg : isImageMessage data = true)
    (hmenu : strContains (runStream true deltas).fullResponse menuPhrase = false) :
    assistantTexts (processMessage data deltas oracle).historyAppends
      = [buildCompleteContent (extractFoodNames (runStream true deltas).fullResponse)]
    ∧ completeTexts (processMessage data deltas oracle).sinkEvents
      = [buildCompleteContent (extractFoodNames (runStream true deltas).fullResponse)] := by
  rw [processMessage_ok data deltas oracle hcred]
  simp only [himg]
  rw [menu_final_eq _ oracle _ hmenu]
  exact ⟨assistantTexts_pair _ _, completeTexts_map_chunk _ _ _⟩

/-- C2: on every turn without an image attachment, the canonical text stored
in history and sent with the terminal complete signal equals the concatenation,
in delivery order, of exactly the incremental chunks forwarded to the delivery
sink. -/
theorem c2_canonical_is_joined_chunks (data : ChatMessage) (deltas : List StreamDelta)
    (oracle : Nat → SearchResult)
    (hcred : credentialPresent (getOpenaiApiKey data.vars) = true)
    (himg : isImageMessage data = false) :
    assistantTexts (processMessage data deltas oracle).historyAppends
      = [strJoin (chunkTexts (processMessage data deltas oracle).sinkEvents)]
    ∧ completeTexts (processMessage data deltas oracle).sinkEvents
      = [strJoin (chunkTexts (processMessage data deltas oracle).sinkEvents)] := by
  rw [processMessage_ok data deltas oracle hcred]
  simp only [himg, stage1_nonImage, finalizeText_nonImage, eventChunks,
    List.append_nil, runStream_chunks_false, runStream_fullResponse,
    chunkTexts_map_chunk, completeTexts_map_chunk, assistantTexts_pair]
  exact ⟨trivial, trivial⟩

/-- C4: during stream consumption every delta with non-empty text is appended
to the accumulator in received order, and the deltas are forwarded verbatim to
the delivery sink in that order exactly when the cycle is not an image cycle;
on an image cycle zero raw stream deltas reach the sink. -/
theorem c4_stream_consumption (deltas : List StreamDelta) (isImage : Bool) :
    (runStream isImage deltas).fullResponse = strJoin (deltaTexts deltas)
    ∧ (runStream false deltas).sinkChunks = deltaTexts deltas
    ∧ (runStream true deltas).sinkChunks = [] :=
  ⟨runStream_fullResponse isImage deltas, runStream_chunks_false deltas,
   runStream_chunks_true deltas⟩

/-- C5: on every image turn classified as a valid menu, the canonical text
stored as the assistant message and sent as the terminal complete signal is
rebuilt from the extracted candidates alone (first ten names, each with the
photo-search placeholder, no photo URLs — see `buildCompleteContent`), and with
zero candidates it states that no items could be extracted. -/
theorem c5_menu_canonical (data : ChatMessage) (deltas : List StreamDelta)
    (oracle : Nat → SearchResult)
    (hcred : credentialPresent (getOpenaiApiKey data.vars) = true)
    (himg : isImageMessage data = true)
    (hmenu : strContains (runStream true deltas).fullResponse menuPhrase = false) :
    assistantTexts (processMessage data deltas oracle).historyAppends
      = [buildCompleteContent (extractFoodNames (runStream true deltas).fullResponse)]
    ∧ completeTexts (processMessage data deltas oracle).sinkEvents
      = [buildCompleteContent (extractFoodNames (runStream true deltas).fullResponse)]
    ∧ buildCompleteContent []
        = "# 🍽️ Food Menu Analysis Results\n\n*No food names could be extracted from the menu.*" := by
  rcases processMessage_menu_texts data deltas oracle hcred himg hmenu with ⟨h1, h2⟩
  exact ⟨h1, h2, by decide⟩

/-- C6: on every turn whose completion credential is absent, the task ends
before any completion-provider call, exactly one error call reaches the sink,
and no history append occurs. -/
theorem c6_missing_credential (data : ChatMessage) (deltas : List StreamDelta)
    (oracle : Nat → SearchResult)
    (h : credentialPresent (getOpenaiApiKey data.vars) = false) :
    processMessage data deltas oracle =
      { sinkEvents := [SinkEvent.errorReport "OpenAI API key not found in variables"],
        historyAppends := [],
        searchCalls := 0,
        providerCalled := false } := by
  simp [processMessage, h]

/-- C9: on every image turn the menu pipeline is gated by a plain substring
test on the accumulated text: when the phrase occurs anywhere the response is
stored verbatim and zero search calls are issued; when it does not occur the
extraction/finalization pipeline runs and the stored text is the rebuilt
canonical content. -/
theorem c9_substring_gate (data : ChatMessage) (deltas : List StreamDelta)
    (oracle : Nat → SearchResult)
    (hcred : credentialPresent (getOpenaiApiKey data.vars) = true)
    (himg : isImageMessage data = true) :
    (strContains (runStream true deltas).fullResponse menuPhrase = true →
      assistantTexts (processMessage data deltas oracle).historyAppends
        = [(runStream true deltas).fullResponse]
      ∧ completeTexts (processMessage data deltas oracle).sinkEvents
        = [(runStream true deltas).fullResponse]
      ∧ (processMessage data deltas oracle).searchCalls = 0)
    ∧ (strContains (runStream true deltas).fullResponse menuPhrase = false →
      assistantTexts (processMessage data deltas oracle).historyAppends
        = [buildCompleteContent (extractFoodNames (runStream true deltas).fullResponse)]) := by
  constructor
  · intro hphrase
    rw [processMessage_ok data deltas oracle hcred]
    simp only [himg]
    rw [stage1_notMenu _ oracle _ hphrase]
    simp only [finalizeText_notMenu _ _ hphrase, eventChunks, eventSearchCount,
      List.append_nil, assistantTexts_pair, completeTexts_map_chunk]
    exact ⟨trivial, trivial, trivial⟩
  · intro hmenu
    exact (processMessage_menu_texts data deltas oracle hcred himg hmenu).1

/-- C10: for any two valid-menu image runs extracting the same candidate list,
the stored assistant text and the terminal complete text are identical, whatever
the search credential and whatever every search call returned. -/
theorem c10_persisted_independence (d1 d2 : ChatMessage)
    (ds1 ds2 : List StreamDelta) (o1 o2 : Nat → SearchResult)
    (hc1 : credentialPresent (getOpenaiApiKey d1.vars) = true)
    (hc2 : credentialPresent (getOpenaiApiKey d2.vars) = true)
    (hi1 : isImageMessage d1 = true) (hi2 : isImageMessage d2 = true)
    (hm1 : strContains (runStream true ds1).fullResponse menuPhrase = false)
    (hm2 : strContains (runStream true ds2).fullResponse menuPhrase = false)
    (hsame : extractFoodNames (runStream true ds1).fullResponse
        = extractFoodNames (runStream true ds2).fullResponse) :
    assistantTexts (processMessage d1 ds1 o1).historyAppends
      = assistantTexts (processMessage d2 ds2 o2).historyAppends
    ∧ completeTexts (processMessage d1 ds1 o1).sinkEvents
      = completeTexts (processMessage d2 ds2 o2).sinkEvents := by
  rcases processMessage_menu_texts d1 ds1 o1 hc1 hi1 hm1 with ⟨a1, b1⟩
  rcases processMessage_menu_texts d2 ds2 o2 hc2 hi2 hm2 with ⟨a2, b2⟩
  rw [a1, a2, b1, b2, hsame]
  exact ⟨rfl, rfl⟩

theorem getD_out_of_range (l : List String) (n : Nat) (h : l.length ≤ n) :
    l.getD n "" = "" := by
  simp [List.getD, List.getElem?_eq_none h]

theorem getD_take_of_lt (l : List String) (m n : Nat) (h : m < n) :
    (l.take n).getD m "" = l.getD m "" := by
  simp [List.getD, List.getElem?_take_of_lt h]

/-- C7: per-candidate search failures are isolated: the enrichment loop
streams exactly one message per candidate, in candidate order, each message a
function of its own candidate's outcome; a candidate whose call timed out gets
the timeout-status message, one whose call raised a transport or other error
gets the error-status message, and one whose call returned a non-2xx status
gets the failed-status message carrying that status; the messages of all other
candidates are unchanged by the failure; and at the pipeline's top level the
task still ends with a terminal complete signal. -/
theorem c7_failure_isolation (o1 o2 : Nat → SearchResult) (names : List String)
    (i : Nat) (hagree : ∀ j, j ≠ i → o1 j = o2 j) :
    (eventChunks (enrichEventsLoop o1 0 names)).length = names.length
    ∧ (∀ j, j < names.length →
        (eventChunks (enrichEventsLoop o1 0 names)).getD j ""
          = foodItemMessage (names.getD j "") (o1 j))
    ∧ (i < names.length → o1 i = SearchResult.timeout →
        (eventChunks (enrichEventsLoop o1 0 names)).getD i ""
          = "## 🍕 " ++ names.getD i "" ++ "\n\n📸 *Search timeout*\n\n---\n\n")
    ∧ (i < names.length → o1 i = SearchResult.requestError →
        (eventChunks (enrichEventsLoop o1 0 names)).getD i ""
          = "## 🍕 " ++ names.getD i "" ++ "\n\n📸 *Search error*\n\n---\n\n")
    ∧ (i < names.length → o1 i = SearchResult.otherError →
        (eventChunks (enrichEventsLoop o1 0 names)).getD i ""
          = "## 🍕 " ++ names.getD i "" ++ "\n\n📸 *Search error*\n\n---\n\n")
    ∧ (∀ status images, i < names.length → (status == 200) = false →
        o1 i = SearchResult.response status images →
        (eventChunks (enrichEventsLoop o1 0 names)).getD i ""
          = "## 🍕 " ++ names.getD i "" ++ "\n\n📸 *Search failed (Status: "
              ++ toString status ++ ")*\n\n---\n\n")
    ∧ (∀ j, j ≠ i →
        (eventChunks (enrichEventsLoop o1 0 names)).getD j ""
          = (eventChunks (enrichEventsLoop o2 0 names)).getD j "")
    ∧ (∀ (data : ChatMessage) (deltas : List StreamDelta),
        credentialPresent (getOpenaiApiKey data.vars) = true →
        ∃ t u, (processMessage data deltas o1).sinkEvents.getLast?
          = some (SinkEvent.complete t u)) := by
  refine ⟨eventChunks_enrichLoop_length o1 names 0, ?_, ?_, ?_, ?_, ?_, ?_, ?_⟩
  · intro j hj
    rw [eventChunks_enrichLoop_getD o1 names 0 j hj, Nat.zero_add]
  · intro hi h
    rw [eventChunks_enrichLoop_getD o1 names 0 i hi, Nat.zero_add, h]
    rfl
  · intro hi h
    rw [eventChunks_enrichLoop_getD o1 names 0 i hi, Nat.zero_add, h]
    rfl
  · intro hi h
    rw [eventChunks_enrichLoop_getD o1 names 0 i hi, Nat.zero_add, h]
    rfl
  · intro status images hi hstatus h
    rw [eventChunks_enrichLoop_getD o1 names 0 i hi, Nat.zero_add, h]
    simp [foodItemMessage, hstatus]
  · intro j hj
    rcases Nat.lt_or_ge j names.length with hlt | hge
    · rw [eventChunks_enrichLoop_getD o1 names 0 j hlt,
        eventChunks_enrichLoop_getD o2 names 0 j hlt, Nat.zero_add, hagree j hj]
    · rw [getD_out_of_range _ _ (by rw [eventChunks_enrichLoop_length]; exact hge),
        getD_out_of_range _ _ (by rw [eventChunks_enrichLoop_length]; exact hge)]
  · intro data deltas hcred
    rw [processMessage_ok data deltas o1 hcred]
    exact ⟨_, _, List.getLast?_concat _⟩

/-- Shared unfolding: the trace of a valid-menu image turn without the search
credential: zero search calls, basic header, one basic chunk per candidate. -/
theorem processMessage_basic_trace (data : ChatMessage) (deltas : List StreamDelta)
    (oracle : Nat → SearchResult)
    (hcred : credentialPresent (getOpenaiApiKey data.vars) = true)
    (himg : isImageMessage data = true)
    (hserp : credentialPresent (findSerperKey data.vars) = false)
    (hmenu : strContains (runStream true deltas).fullResponse menuPhrase = false)
    (hne : (extractFoodNames (runStream true deltas).fullResponse).isEmpty = false) :
    (processMessage data deltas oracle).searchCalls = 0
    ∧ chunkTexts (processMessage data deltas oracle).sinkEvents
        = "# 🍽️ Food Menu Items\n\n"
          :: (extractFoodNames (runStream true deltas).fullResponse).map basicItemMessage := by
  rw [processMessage_ok data deltas oracle hcred]
  simp only [himg, hserp]
  rw [stage1_menu_basic oracle _ hmenu hne]
  constructor
  · simp only [eventSearchCount, eventSearchCount_basicLoop]
  · rw [runStream_chunks_true]
    simp only [List.nil_append, chunkTexts_map_chunk, eventChunks, eventChunks_basicLoop]

/-- Shared unfolding: the trace of a valid-menu image turn with the search
credential: header then the enrichment loop over the first ten candidates,
one search call each. -/
theorem processMessage_serper_trace (data : ChatMessage) (deltas : List StreamDelta)
    (oracle : Nat → SearchResult)
    (hcred : credentialPresent (getOpenaiApiKey data.vars) = true)
    (himg : isImageMessage data = true)
    (hserp : credentialPresent (findSerperKey data.vars) = true)
    (hmenu : strContains (runStream true deltas).fullResponse menuPhrase = false)
    (hne : (extractFoodNames (runStream true deltas).fullResponse).isEmpty = false) :
    (processMessage data deltas oracle).searchCalls
        = ((extractFoodNames (runStream true deltas).fullResponse).take 10).length
    ∧ chunkTexts (processMessage data deltas oracle).sinkEvents
        = "# 🍽️ Food Menu Analysis Results\n\n"
          :: eventChunks (enrichEventsLoop oracle 0
               ((extractFoodNames (runStream true deltas).fullResponse).take 10)) := by
  rw [processMessage_ok data deltas oracle hcred]
  simp only [himg, hserp]
  rw [stage1_menu_serper oracle _ hmenu hne]
  constructor
  · simp only [eventSearchCount, eventSearchCount_enrichLoop]
  · rw [runStream_chunks_true]
    simp only [List.nil_append, chunkTexts_map_chunk, eventChunks]

/-- C8: on a valid-menu image turn with no search credential, zero external
search calls are issued and the sink receives the basic header plus exactly
one per-candidate message that carries the name and no photo field. -/
theorem c8_degraded_no_serper (data : ChatMessage) (deltas : List StreamDelta)
    (oracle : Nat → SearchResult)
    (hcred : credentialPresent (getOpenaiApiKey data.vars) = true)
    (himg : isImageMessage data = true)
    (hserp : credentialPresent (findSerperKey data.vars) = false)
    (hmenu : strContains (runStream true deltas).fullResponse menuPhrase = false) :
    (processMessage data deltas oracle).searchCalls = 0
    ∧ chunkTexts (processMessage data deltas oracle).sinkEvents
        = (if (extractFoodNames (runStream true deltas).fullResponse).isEmpty then []
           else "# 🍽️ Food Menu Items\n\n"
             :: (extractFoodNames (runStream true deltas).fullResponse).map
                  basicItemMessage) := by
  rcases hne : (extractFoodNames (runStream true deltas).fullResponse).isEmpty with _ | _
  · rcases processMessage_basic_trace data deltas oracle hcred himg hserp hmenu hne
      with ⟨h1, h2⟩
    rw [h1, h2, if_neg (by simp [hne])]
    exact ⟨rfl, rfl⟩
  · constructor
    · rw [processMessage_ok data deltas oracle hcred]
      simp only [himg]
      rw [stage1_menu_noNames _ oracle _ hmenu hne]
      rfl
    · rw [processMessage_ok data deltas oracle hcred]
      simp only [himg]
      rw [stage1_menu_noNames _ oracle _ hmenu hne, if_pos (by simp [hne])]
      rw [runStream_chunks_true]
      simp only [List.append_nil, eventChunks]
      exact chunkTexts_map_chunk [] _ _

theorem isEmpty_false_of_length_pos (l : List String) (h : l.length ≠ 0) :
    l.isEmpty = false := by
  cases l with
  | nil => exact absurd rfl h
  | cons a l => rfl

/-- C3 (amended): on a valid-menu image turn with twelve extracted candidates,
at most ten external search calls are issued in every case; with the search
credential present exactly ten per-item messages are streamed, in candidate
order, each determined by its own candidate's search outcome; with the
credential absent zero search calls are issued but one message per candidate —
twelve — is streamed, in candidate order. -/
theorem c3_enrichment_bounds (data : ChatMessage) (deltas : List StreamDelta)
    (oracle : Nat → SearchResult)
    (hcred : credentialPresent (getOpenaiApiKey data.vars) = true)
    (himg : isImageMessage data = true)
    (hmenu : strContains (runStream true deltas).fullResponse menuPhrase = false)
    (h12 : (extractFoodNames (runStream true deltas).fullResponse).length = 12) :
    (processMessage data deltas oracle).searchCalls ≤ 10
    ∧ (credentialPresent (findSerperKey data.vars) = true →
        (processMessage data deltas oracle).searchCalls = 10
        ∧ chunkTexts (processMessage data deltas oracle).sinkEvents
            = "# 🍽️ Food Menu Analysis Results\n\n"
              :: eventChunks (enrichEventsLoop oracle 0
                   ((extractFoodNames (runStream true deltas).fullResponse).take 10))
        ∧ (eventChunks (enrichEventsLoop oracle 0
             ((extractFoodNames (runStream true deltas).fullResponse).take 10))).length
            = 10
        ∧ (∀ j, j < 10 →
            (eventChunks (enrichEventsLoop oracle 0
               ((extractFoodNames (runStream true deltas).fullResponse).take 10))).getD j ""
              = foodItemMessage
                  ((extractFoodNames (runStream true deltas).fullResponse).getD j "")
                  (oracle j)))
    ∧ (credentialPresent (findSerperKey data.vars) = false →
        (processMessage data deltas oracle).searchCalls = 0
        ∧ chunkTexts (processMessage data deltas oracle).sinkEvents
            = "# 🍽️ Food Menu Items\n\n"
              :: (extractFoodNames (runStream true deltas).fullResponse).map
                   basicItemMessage
        ∧ ((extractFoodNames (runStream true deltas).fullResponse).map
             basicItemMessage).length = 12) := by
  have hne : (extractFoodNames (runStream true deltas).fullResponse).isEmpty = false :=
    isEmpty_false_of_length_pos _ (by rw [h12]; exact (by decide))
  have htake : ((extractFoodNames (runStream true deltas).fullResponse).take 10).length
      = 10 := by
    rw [List.length_take, h12]
    decide
  have hloop : (eventChunks (enrichEventsLoop oracle 0
      ((extractFoodNames (runStream true deltas).fullResponse).take 10))).length = 10 := by
    rw [eventChunks_enrichLoop_length, htake]
  refine ⟨?_, ?_, ?_⟩
  · rcases hs : credentialPresent (findSerperKey data.vars) with _ | _
    · rw [(processMessage_basic_trace data deltas oracle hcred himg hs hmenu hne).1]
      decide
    · rw [(processMessage_serper_trace data deltas oracle hcred himg hs hmenu hne).1,
        htake]
  · intro hs
    rcases processMessage_serper_trace data deltas oracle hcred himg hs hmenu hne
      with ⟨h1, h2⟩
    refine ⟨by rw [h1, htake], h2, hloop, ?_⟩
    intro j hj
    have hjt : j < ((extractFoodNames (runStream true deltas).fullResponse).take 10).length := by
      rw [htake]; exact hj
    rw [eventChunks_enrichLoop_getD oracle _ 0 j hjt, Nat.zero_add,
      getD_take_of_lt _ _ _ hj]
  · intro hs
    rcases processMessage_basic_trace data deltas oracle hcred himg hs hmenu hne
      with ⟨h1, h2⟩
    refine ⟨h1, h2, ?_⟩
    rw [List.length_map, h12]

/-- Twelve valid candidate lines, used to falsify the unconditional ten-item
cap claimed for the credential-absent path. -/
def c3raw : String :=
  "Apple Pie\nBeef Stew\nCorn Soup\nDuck Rice\nEgg Tart\nFig Cake\nGoat Curry\nHam Roll\nInk Pasta\nJam Toast\nKale Chips\nLamb Chop"

/-- Configuration with the completion credential only (no search credential). -/
def wVarsPlain : List Variable :=
  [{ name := "OPENAI_API_KEY", value := "sk-test" }]

/-- A plain text turn (no attachment). -/
def wDataText : ChatMessage :=
  { thread_id := "t1", message := "hello", model := "gpt-4o",
    system_message := "sys", project_system_message := "proj",
    vars := wVarsPlain, file_type := none, file_url := none,
    response_uuid := "r1" }

/-- An image turn with the completion credential but no search credential. -/
def wDataImgNoSerper : ChatMessage :=
  { wDataText with
    file_type := some "image",
    file_url := some "http://example.com/menu.jpg" }

/-- A search oracle where every call times out. -/
def wOracle : Nat → SearchResult := fun _ => SearchResult.timeout

/-- C3 is refuted as stated: with twelve extracted candidates and the search
credential absent, the pipeline streams twelve per-item messages — more than
ten. -/
theorem c3_counterexample :
    (extractFoodNames c3raw).length = 12
    ∧ chunkTexts (processMessage wDataImgNoSerper
          [{ content := some c3raw, usage := none }] wOracle).sinkEvents
        = "# 🍽️ Food Menu Items\n\n" :: (extractFoodNames c3raw).map basicItemMessage
    ∧ ¬ (((extractFoodNames c3raw).map basicItemMessage).length ≤ 10) := by
  refine ⟨by decide, by decide, by decide⟩

/-- Configuration with both the completion and the search credential. -/
def wVarsSerper : List Variable :=
  [{ name := "OPENAI_API_KEY", value := "sk-test" },
   { name := "SERPER_API_KEY", value := "serp-key" }]

/-- An image turn with both credentials. -/
def wDataImgSerper : ChatMessage :=
  { wDataText with
    vars := wVarsSerper,
    file_type := some "image",
    file_url := some "http://example.com/menu.jpg" }

/-- A turn with no configuration variables at all. -/
def wDataNoKey : ChatMessage :=
  { wDataText with vars := [] }

/-- A small plain-text delta sequence. -/
def wDeltasText : List StreamDelta :=
  [{ content := some "Hello ", usage := none },
   { content := none, usage := none },
   { content := some "world", usage := some 7 }]

/-- A delta sequence whose accumulated text is a two-item menu. -/
def wDeltasMenu : List StreamDelta :=
  [{ content := some "Pizza\nSushi", usage := none }]

/-- A differently streamed and decorated menu extracting the same two names. -/
def wDeltasMenu2 : List StreamDelta :=
  [{ content := some "- Pizza\nSushi (fresh)", usage := some 3 }]

/-- The twelve-candidate delta sequence for the C3 bounds. -/
def wDeltasC3 : List StreamDelta :=
  [{ content := some c3raw, usage := none }]

/-- An oracle that times out only on the first candidate. -/
def c7o1 : Nat → SearchResult :=
  fun j => if j == 0 then SearchResult.timeout else SearchResult.response 200 []

/-- An oracle that fails with a transport error only on the first candidate. -/
def c7o2 : Nat → SearchResult :=
  fun j => if j == 0 then SearchResult.requestError else SearchResult.response 200 []

/-- An oracle whose call returns HTTP 404 only on the first candidate. -/
def c7oFail : Nat → SearchResult :=
  fun j => if j == 0 then SearchResult.response 404 [] else SearchResult.response 200 []

/-- An oracle that always answers 200 with no images. -/
def wOracleEmpty : Nat → SearchResult := fun _ => SearchResult.response 200 []

theorem c2_witness :
    assistantTexts (processMessage wDataText wDeltasText wOracle).historyAppends
      = [strJoin (chunkTexts (processMessage wDataText wDeltasText wOracle).sinkEvents)] :=
  (c2_canonical_is_joined_chunks wDataText wDeltasText wOracle (by decide) (by decide)).1

theorem c3_witness :
    (processMessage wDataImgNoSerper wDeltasC3 wOracle).searchCalls ≤ 10 :=
  (c3_enrichment_bounds wDataImgNoSerper wDeltasC3 wOracle (by decide) (by decide)
    (by decide) (by decide)).1

theorem c5_witness :
    assistantTexts (processMessage wDataImgSerper wDeltasMenu wOracle).historyAppends
      = [buildCompleteContent
          (extractFoodNames (runStream true wDeltasMenu).fullResponse)] :=
  (c5_menu_canonical wDataImgSerper wDeltasMenu wOracle (by decide) (by decide)
    (by decide)).1

theorem c6_witness :
    processMessage wDataNoKey wDeltasText wOracle =
      { sinkEvents := [SinkEvent.errorReport "OpenAI API key not found in variables"],
        historyAppends := [],
        searchCalls := 0,
        providerCalled := false } :=
  c6_missing_credential wDataNoKey wDeltasText wOracle (by decide)

theorem c7_witness :
    ((eventChunks (enrichEventsLoop c7o1 0 ["Pasta", "Sushi"])).getD 0 ""
        = "## 🍕 " ++ (["Pasta", "Sushi"] : List String).getD 0 ""
            ++ "\n\n📸 *Search timeout*\n\n---\n\n")
    ∧ ((eventChunks (enrichEventsLoop c7oFail 0 ["Pasta", "Sushi"])).getD 0 ""
        = "## 🍕 " ++ (["Pasta", "Sushi"] : List String).getD 0 ""
            ++ "\n\n📸 *Search failed (Status: " ++ toString (404 : Nat)
            ++ ")*\n\n---\n\n")
    ∧ ((eventChunks (enrichEventsLoop c7o2 0 ["Pasta", "Sushi"])).getD 0 ""
        = "## 🍕 " ++ (["Pasta", "Sushi"] : List String).getD 0 ""
            ++ "\n\n📸 *Search error*\n\n---\n\n") :=
  ⟨(c7_failure_isolation c7o1 c7o2 ["Pasta", "Sushi"] 0
      (fun j hj => by
        have hb : (j == 0) = false := beq_eq_false_iff_ne.mpr hj
        simp [c7o1, c7o2, hb])).2.2.1 (by decide) rfl,
   (c7_failure_isolation c7oFail c7o2 ["Pasta", "Sushi"] 0
      (fun j hj => by
        have hb : (j == 0) = false := beq_eq_false_iff_ne.mpr hj
        simp [c7oFail, c7o2, hb])).2.2.2.2.2.1 404 [] (by decide) (by decide) rfl,
   (c7_failure_isolation c7o2 c7o1 ["Pasta", "Sushi"] 0
      (fun j hj => by
        have hb : (j == 0) = false := beq_eq_false_iff_ne.mpr hj
        simp [c7o2, c7o1, hb])).2.2.2.1 (by decide) rfl⟩

theorem c8_witness :
    (processMessage wDataImgNoSerper wDeltasMenu wOracle).searchCalls = 0 :=
  (c8_degraded_no_serper wDataImgNoSerper wDeltasMenu wOracle (by decide) (by decide)
    (by decide) (by decide)).1

theorem c9_witness :
    assistantTexts (processMessage wDataImgNoSerper wDeltasMenu wOracle).historyAppends
      = [buildCompleteContent
          (extractFoodNames (runStream true wDeltasMenu).fullResponse)] :=
  (c9_substring_gate wDataImgNoSerper wDeltasMenu wOracle (by decide) (by decide)).2
    (by decide)

theorem c10_witness :
    assistantTexts (processMessage wDataImgNoSerper wDeltasMenu wOracle).historyAppends
      = assistantTexts
          (processMessage wDataImgSerper wDeltasMenu2 wOracleEmpty).historyAppends :=
  (c10_persisted_independence wDataImgNoSerper wDataImgSerper wDeltasMenu wDeltasMenu2
    wOracle wOracleEmpty (by decide) (by decide) (by decide) (by decide) (by decide)
    (by decide) (by decide)).1
